import Mathlib

/-!
# Verification of the KS236 ultrasonic probe RS485 protocol scripts

Shallow embedding of the four Python source files
(`ks236_energy_get.py`, `ks236_energy_set.py`, `ks236_p_get.py`,
`ks236_p_set.py`).  Bytes are modelled as `Nat` (all byte values in the
protocol are below 256 and XOR of such values stays below 256).  The
serial port is modelled as a scripted transport: a list of upcoming read
results plus a log of written frames.  Blocking sleeps, logging output
and string formatting carry no data relevant to the verified behaviour
and are omitted; a Python exception raised on an out-of-domain probe
lookup is modelled as the corresponding failure result.
-/

set_option maxRecDepth 4096

/-- Scripted serial transport: `reads` are the upcoming results of
successive `read` calls (a read past the end of the script returns the
empty byte string, i.e. a timeout with no data); `writes` logs every
frame written, in order.  `reset_input_buffer`/`flush` are no-ops in
this model. -/
structure Transport where
  reads : List (List Nat)
  writes : List (List Nat)
deriving DecidableEq, Repr

/-- One `serial.read` call: consume the next scripted result. -/
def Transport.readNext (t : Transport) : List Nat × Transport :=
  match t.reads with
  | [] => ([], t)
  | r :: rs => (r, { t with reads := rs })

/-- One `serial.write` call: log the frame.  The write is modelled as
always transferring the full frame (`bytes_sent == len(frame)`). -/
def Transport.writeFrame (t : Transport) (frame : List Nat) : Transport :=
  { t with writes := t.writes ++ [frame] }

/-- Function `calculate_bcc` (identical in all four source files): XOR of all
bytes, accumulated left to right from 0. -/
def calculate_bcc (data : List Nat) : Nat :=
  data.foldl Nat.xor 0

namespace KS236EnergyReader

/-- Constant `ADDR_CODE`. -/
def ADDR_CODE : Nat := 0xE8
/-- Constant `CMD_CODE`. -/
def CMD_CODE : Nat := 0x99

/-- Table `PROBE_PARAMS` of `ks236_energy_get.py`: query parameter codes for
probes 1-9; `none` models a key miss. -/
def PROBE_PARAMS (n : Nat) : Option Nat :=
  match n with
  | 1 => some 0xD1 | 2 => some 0xD2 | 3 => some 0xD3 | 4 => some 0xD4
  | 5 => some 0xD5 | 6 => some 0xD6 | 7 => some 0xD7 | 8 => some 0xD8
  | 9 => some 0xD9
  | _ => none

/-- Constant `EXPECTED_RESPONSE_LENGTH`. -/
def EXPECTED_RESPONSE_LENGTH : Nat := 15

/-- Function `create_query_command`: header bytes plus their XOR.  The Python
`ValueError` on an out-of-domain probe is modelled as `none`. -/
def create_query_command (probe_num : Nat) : Option (List Nat) :=
  (PROBE_PARAMS probe_num).map fun param =>
    [ADDR_CODE, CMD_CODE, param, Nat.xor (Nat.xor ADDR_CODE CMD_CODE) param]

/-- Function `validate_response`: length, header, echoed parameter and BCC
checks, in the source's order.  The source indexes `PROBE_PARAMS`
directly (a `KeyError` for an out-of-domain probe); the function is only
called with in-domain probes, and the `none` branch is modelled as
rejection. -/
def validate_response (response : List Nat) (expected_probe_num : Nat) : Bool :=
  match PROBE_PARAMS expected_probe_num with
  | none => false
  | some expected_param =>
    if response.length ≠ EXPECTED_RESPONSE_LENGTH then false
    else if response.getD 0 0 ≠ ADDR_CODE ∨ response.getD 1 0 ≠ CMD_CODE then false
    else if response.getD 2 0 ≠ expected_param then false
    else if response.getLastD 0 ≠ calculate_bcc response.dropLast then false
    else true

/-- One range record of `parse_response` (`energy`/`time`/`threshold`). -/
structure RangeData where
  energy : Nat
  time : Nat
  threshold : Nat
deriving DecidableEq, Repr

/-- The numeric content of the dictionary built by `parse_response`
(hex-string renderings of the same bytes are omitted). -/
structure ParsedEnergy where
  probe_num : Nat
  range_2_5m : RangeData
  range_1_5m : RangeData
  range_6_5m : RangeData
  param1 : Nat
  param2 : Nat
  bcc : Nat
deriving DecidableEq, Repr

/-- Function `parse_response`: fixed-offset extraction from a 15-byte response. -/
def parse_response (response : List Nat) (probe_num : Nat) : ParsedEnergy :=
  { probe_num := probe_num
    range_2_5m := ⟨response.getD 3 0, response.getD 4 0, response.getD 5 0⟩
    range_1_5m := ⟨response.getD 6 0, response.getD 7 0, response.getD 8 0⟩
    range_6_5m := ⟨response.getD 9 0, response.getD 10 0, response.getD 11 0⟩
    param1 := response.getD 12 0
    param2 := response.getD 13 0
    bcc := response.getD 14 0 }

/-- The retry loop body of `query_probe`, one recursive step per
remaining attempt.  Each attempt clears the input buffer (a no-op in the
scripted model), writes the query command, reads up to 15 bytes and
classifies the result; any non-valid outcome falls through to the next
attempt.  A caught Python exception also falls through; the model's
operations are total, so only the explicit branches occur. -/
def query_probe_loop (command : List Nat) (probe_num : Nat) :
    Nat → Transport → Option ParsedEnergy × Transport
  | 0, t => (none, t)
  | n + 1, t =>
    let t1 := t.writeFrame command
    let (response, t2) := t1.readNext
    if response.length = EXPECTED_RESPONSE_LENGTH then
      if validate_response response probe_num then
        (some (parse_response response probe_num), t2)
      else query_probe_loop command probe_num n t2
    else query_probe_loop command probe_num n t2

/-- Function `query_probe`: build the command, then run up to `max_retries`
attempts; exhaustion returns `none`. -/
def query_probe (probe_num : Nat) (max_retries : Nat) (t : Transport) :
    Option ParsedEnergy × Transport :=
  match create_query_command probe_num with
  | none => (none, t)
  | some command => query_probe_loop command probe_num max_retries t

end KS236EnergyReader

namespace KS236PValueReader

/-- Constant `ADDR_CODE`. -/
def ADDR_CODE : Nat := 0xE8
/-- Constant `CMD_CODE`. -/
def CMD_CODE : Nat := 0x99

/-- Table `PROBE_PARAMS` of `ks236_p_get.py`: query parameter codes for
probes 1-9. -/
def PROBE_PARAMS (n : Nat) : Option Nat :=
  match n with
  | 1 => some 0xE1 | 2 => some 0xE2 | 3 => some 0xE3 | 4 => some 0xE4
  | 5 => some 0xE5 | 6 => some 0xE6 | 7 => some 0xE7 | 8 => some 0xE8
  | 9 => some 0xE9
  | _ => none

/-- Constant `EXPECTED_RESPONSE_LENGTH`. -/
def EXPECTED_RESPONSE_LENGTH : Nat := 21

/-- Function `create_query_command` (`ValueError` modelled as `none`). -/
def create_query_command (probe_num : Nat) : Option (List Nat) :=
  (PROBE_PARAMS probe_num).map fun param =>
    [ADDR_CODE, CMD_CODE, param, Nat.xor (Nat.xor ADDR_CODE CMD_CODE) param]

/-- Function `validate_response` of `ks236_p_get.py`: same checks as the energy
reader, with expected length 21 and the P-value parameter table. -/
def validate_response (response : List Nat) (expected_probe_num : Nat) : Bool :=
  match PROBE_PARAMS expected_probe_num with
  | none => false
  | some expected_param =>
    if response.length ≠ EXPECTED_RESPONSE_LENGTH then false
    else if response.getD 0 0 ≠ ADDR_CODE ∨ response.getD 1 0 ≠ CMD_CODE then false
    else if response.getD 2 0 ≠ expected_param then false
    else if response.getLastD 0 ≠ calculate_bcc response.dropLast then false
    else true

/-- The numeric content of the dictionary built by `parse_response` of
`ks236_p_get.py`: the echoed parameter, the 17 P values
(`response[3:20]`) and the checksum byte; per-parameter description
strings and default-comparison flags are presentation only and omitted. -/
structure ParsedP where
  probe_num : Nat
  probe_id : Nat
  p_values : List Nat
  bcc : Nat
deriving DecidableEq, Repr

/-- Function `parse_response` of `ks236_p_get.py`. -/
def parse_response (response : List Nat) (probe_num : Nat) : ParsedP :=
  { probe_num := probe_num
    probe_id := response.getD 2 0
    p_values := (response.drop 3).take 17
    bcc := response.getD 20 0 }

/-- Retry loop of `query_probe` in `ks236_p_get.py` (structure
identical to the energy reader's, expected length 21). -/
def query_probe_loop (command : List Nat) (probe_num : Nat) :
    Nat → Transport → Option ParsedP × Transport
  | 0, t => (none, t)
  | n + 1, t =>
    let t1 := t.writeFrame command
    let (response, t2) := t1.readNext
    if response.length = EXPECTED_RESPONSE_LENGTH then
      if validate_response response probe_num then
        (some (parse_response response probe_num), t2)
      else query_probe_loop command probe_num n t2
    else query_probe_loop command probe_num n t2

/-- Function `query_probe` of `ks236_p_get.py`. -/
def query_probe (probe_num : Nat) (max_retries : Nat) (t : Transport) :
    Option ParsedP × Transport :=
  match create_query_command probe_num with
  | none => (none, t)
  | some command => query_probe_loop command probe_num max_retries t

end KS236PValueReader

namespace KS236EnergySetter

/-- Constant `ADDR_CODE`. -/
def ADDR_CODE : Nat := 0xE8
/-- Constant `CMD_CODE`. -/
def CMD_CODE : Nat := 0x99

/-- Table `PROBE_TEMP_PARAMS`: temporary-write parameter codes, probes 1-12. -/
def PROBE_TEMP_PARAMS (n : Nat) : Option Nat :=
  match n with
  | 1 => some 0xB1 | 2 => some 0xB2 | 3 => some 0xB3 | 4 => some 0xB4
  | 5 => some 0xB5 | 6 => some 0xB6 | 7 => some 0xB7 | 8 => some 0xB8
  | 9 => some 0xB9 | 10 => some 0xBA | 11 => some 0xBB | 12 => some 0xBC
  | _ => none

/-- Table `PROBE_PERM_PARAMS`: permanent-write parameter codes, probes 1-12. -/
def PROBE_PERM_PARAMS (n : Nat) : Option Nat :=
  match n with
  | 1 => some 0x71 | 2 => some 0x72 | 3 => some 0x73 | 4 => some 0x74
  | 5 => some 0x75 | 6 => some 0x76 | 7 => some 0x77 | 8 => some 0x78
  | 9 => some 0x79 | 10 => some 0x7A | 11 => some 0x7B | 12 => some 0x7C
  | _ => none

/-- Table `PROBE_QUERY_PARAMS` of `ks236_energy_set.py`: query codes, 1-12. -/
def PROBE_QUERY_PARAMS (n : Nat) : Option Nat :=
  match n with
  | 1 => some 0xD1 | 2 => some 0xD2 | 3 => some 0xD3 | 4 => some 0xD4
  | 5 => some 0xD5 | 6 => some 0xD6 | 7 => some 0xD7 | 8 => some 0xD8
  | 9 => some 0xD9 | 10 => some 0xDA | 11 => some 0xDB | 12 => some 0xDC
  | _ => none

/-- Constant `FIXED_PARAMS`. -/
def FIXED_PARAMS : Nat × Nat := (0x2C, 0x40)

/-- The dictionary returned by `read_probe_params`: the nine
configurable bytes of an energy profile. -/
structure EnergyParams where
  energy1 : Nat
  time1 : Nat
  threshold1 : Nat
  energy2 : Nat
  time2 : Nat
  threshold2 : Nat
  energy3 : Nat
  time3 : Nat
  threshold3 : Nat
deriving DecidableEq, Repr

/-- Function `read_probe_params`: send a query, read 15 bytes, and accept on a
length and address/command header match alone (the source checks
neither the echoed parameter byte nor the BCC here); the nine data
bytes are returned as the current profile. -/
def read_probe_params (probe_num : Nat) (t : Transport) :
    Option EnergyParams × Transport :=
  match PROBE_QUERY_PARAMS probe_num with
  | none => (none, t)
  | some param =>
    let command := [ADDR_CODE, CMD_CODE, param,
      Nat.xor (Nat.xor ADDR_CODE CMD_CODE) param]
    let t1 := t.writeFrame command
    let (response, t2) := t1.readNext
    if response.length = 15 then
      if response.getD 0 0 = ADDR_CODE ∧ response.getD 1 0 = CMD_CODE then
        (some { energy1 := response.getD 3 0, time1 := response.getD 4 0,
                threshold1 := response.getD 5 0,
                energy2 := response.getD 6 0, time2 := response.getD 7 0,
                threshold2 := response.getD 8 0,
                energy3 := response.getD 9 0, time3 := response.getD 10 0,
                threshold3 := response.getD 11 0 }, t2)
      else (none, t2)
    else (none, t2)

/-- The 15-byte write frame built inside `set_probe_params`: header,
nine data bytes, the two fixed bytes, then the BCC over everything
before it. -/
def write_command (param1 e1 t1 th1 e2 t2 th2 e3 t3 th3 : Nat) : List Nat :=
  let command := [ADDR_CODE, CMD_CODE, param1, e1, t1, th1, e2, t2, th2,
    e3, t3, th3, FIXED_PARAMS.1, FIXED_PARAMS.2]
  command ++ [calculate_bcc command]

/-- Retry loop of `set_probe_params`: write the frame, read a 5-byte
acknowledgement.  On a full header-correct ack, status `0x00` returns
success and `0x02`/`0xFF` return failure, all immediately; any other
status value, a malformed header, or a short/absent ack falls through
to the next attempt. -/
def set_probe_params_loop (full_command : List Nat) :
    Nat → Transport → Bool × Transport
  | 0, t => (false, t)
  | n + 1, t =>
    let t1 := t.writeFrame full_command
    let (response, t2) := t1.readNext
    if 5 ≤ response.length then
      if response.getD 0 0 = ADDR_CODE ∧ response.getD 1 0 = CMD_CODE then
        let status := response.getD 3 0
        if status = 0x00 then (true, t2)
        else if status = 0x02 then (false, t2)
        else if status = 0xFF then (false, t2)
        else set_probe_params_loop full_command n t2
      else set_probe_params_loop full_command n t2
    else set_probe_params_loop full_command n t2

/-- Function `set_probe_params`: probe-domain and numeric-range validation (no
I/O when violated), then the bounded write/ack retry loop. -/
def set_probe_params (probe_num e1 t1 th1 e2 t2 th2 e3 t3 th3 : Nat)
    (permanent : Bool) (max_retries : Nat) (t : Transport) :
    Bool × Transport :=
  if (PROBE_TEMP_PARAMS probe_num).isNone then (false, t)
  else if ¬(e1 ≤ 7 ∧ e2 ≤ 7 ∧ e3 ≤ 7) then (false, t)
  else if ¬(t1 ≤ 7 ∧ t2 ≤ 7 ∧ t3 ≤ 7) then (false, t)
  else if ¬(th1 ≤ 3 ∧ th2 ≤ 3 ∧ th3 ≤ 3) then (false, t)
  else
    let param1 := ((if permanent then PROBE_PERM_PARAMS probe_num
      else PROBE_TEMP_PARAMS probe_num).getD 0)
    set_probe_params_loop (write_command param1 e1 t1 th1 e2 t2 th2 e3 t3 th3)
      max_retries t

/-- The `range_m` argument of `set_range_energy`: one of the float
literals 2.5, 1.5 and 6.5, which the source only ever compares for
equality against those same three literals, modelled as an
enumeration. -/
inductive RangeSel where
  | r2_5m
  | r1_5m
  | r6_5m
deriving DecidableEq, Repr

/-- The overlay block of `set_range_energy` (`new_params = current.copy()`
followed by the per-range assignments): the selected range's energy is
replaced, its time/threshold only when explicitly supplied, and every
other field keeps the value just read. -/
def overlay_params (current : EnergyParams) (range_m : RangeSel) (energy : Nat)
    (time_val threshold : Option Nat) : EnergyParams :=
  match range_m with
  | .r2_5m =>
    { current with
      energy1 := energy
      time1 := time_val.getD current.time1
      threshold1 := threshold.getD current.threshold1 }
  | .r1_5m =>
    { current with
      energy2 := energy
      time2 := time_val.getD current.time2
      threshold2 := threshold.getD current.threshold2 }
  | .r6_5m =>
    { current with
      energy3 := energy
      time3 := time_val.getD current.time3
      threshold3 := threshold.getD current.threshold3 }

/-- The verification predicate at the end of `set_range_energy`: only
the energy byte of the selected range is compared against the requested
value. -/
def range_energy_applied (updated : EnergyParams) (range_m : RangeSel)
    (energy : Nat) : Bool :=
  match range_m with
  | .r2_5m => updated.energy1 = energy
  | .r1_5m => updated.energy2 = energy
  | .r6_5m => updated.energy3 = energy

/-- Function `set_range_energy`: read the current profile (abort on failure),
overlay the requested fields, submit the full profile, and, when
`verify` is set and the write succeeded, re-read and check only the
selected range's energy byte; a failed verification re-read returns the
write's success unchanged. -/
def set_range_energy (probe_num : Nat) (range_m : RangeSel) (energy : Nat)
    (time_val threshold : Option Nat) (permanent : Bool)
    (verify : Bool) (t : Transport) : Bool × Transport :=
  match read_probe_params probe_num t with
  | (none, t1) => (false, t1)
  | (some current, t1) =>
    let np := overlay_params current range_m energy time_val threshold
    let (success, t2) := set_probe_params probe_num
      np.energy1 np.time1 np.threshold1 np.energy2 np.time2 np.threshold2
      np.energy3 np.time3 np.threshold3 permanent 3 t1
    if success ∧ verify then
      match read_probe_params probe_num t2 with
      | (some updated, t3) => (range_energy_applied updated range_m energy, t3)
      | (none, t3) => (success, t3)
    else (success, t2)

end KS236EnergySetter

namespace KS236PValueSetter

/-- Constant `ADDR_CODE`. -/
def ADDR_CODE : Nat := 0xE8
/-- Constant `CMD_CODE`. -/
def CMD_CODE : Nat := 0x99

/-- Table `PROBE_TEMP_PARAMS`: temporary-write parameter codes, probes 1-9. -/
def PROBE_TEMP_PARAMS (n : Nat) : Option Nat :=
  match n with
  | 1 => some 0xC1 | 2 => some 0xC2 | 3 => some 0xC3 | 4 => some 0xC4
  | 5 => some 0xC5 | 6 => some 0xC6 | 7 => some 0xC7 | 8 => some 0xC8
  | 9 => some 0xC9
  | _ => none

/-- Table `PROBE_PERM_PARAMS`: permanent-write parameter codes, probes 1-9. -/
def PROBE_PERM_PARAMS (n : Nat) : Option Nat :=
  match n with
  | 1 => some 0x81 | 2 => some 0x82 | 3 => some 0x83 | 4 => some 0x84
  | 5 => some 0x85 | 6 => some 0x86 | 7 => some 0x87 | 8 => some 0x88
  | 9 => some 0x89
  | _ => none

/-- Table `PROBE_QUERY_PARAMS` of `ks236_p_set.py`: query codes, probes 1-9. -/
def PROBE_QUERY_PARAMS (n : Nat) : Option Nat :=
  match n with
  | 1 => some 0xE1 | 2 => some 0xE2 | 3 => some 0xE3 | 4 => some 0xE4
  | 5 => some 0xE5 | 6 => some 0xE6 | 7 => some 0xE7 | 8 => some 0xE8
  | 9 => some 0xE9
  | _ => none

/-- The `values` entries of `BEAM_PRESETS`, keyed by preset name (the
display-name and description strings are presentation only). -/
def BEAM_PRESETS (name : String) : Option (List Nat) :=
  match name with
  | "narrow" => some [31, 31, 31, 30, 26, 21, 16, 16, 13, 0, 0, 0, 0, 3, 1, 0, 1]
  | "medium" => some [24, 24, 23, 21, 18, 13, 10, 10, 6, 0, 0, 0, 0, 3, 1, 0, 1]
  | "wide" => some [15, 15, 15, 15, 10, 10, 5, 5, 0, 0, 0, 0, 0, 3, 1, 0, 1]
  | "ultra_wide" => some [10, 10, 7, 7, 6, 3, 2, 0, 0, 0, 0, 0, 0, 3, 1, 0, 1]
  | "default" => some [19, 19, 19, 31, 31, 31, 31, 31, 31, 31, 31, 31, 0, 3, 1, 0, 1]
  | _ => none

/-- Function `read_probe_p_values`: send a query, read 21 bytes, check length,
address/command header and the BCC (the last byte against the XOR of
the first 20), and return `response[3:20]`, the 17 P values. -/
def read_probe_p_values (probe_num : Nat) (t : Transport) :
    Option (List Nat) × Transport :=
  match PROBE_QUERY_PARAMS probe_num with
  | none => (none, t)
  | some param =>
    let command := [ADDR_CODE, CMD_CODE, param,
      Nat.xor (Nat.xor ADDR_CODE CMD_CODE) param]
    let t1 := t.writeFrame command
    let (response, t2) := t1.readNext
    if response.length = 21 then
      if response.getD 0 0 = ADDR_CODE ∧ response.getD 1 0 = CMD_CODE then
        if response.getD 20 0 = calculate_bcc response.dropLast then
          (some ((response.drop 3).take 17), t2)
        else (none, t2)
      else (none, t2)
    else (none, t2)

/-- The 21-byte write frame built inside `set_probe_p_values`: header,
the 17 P values, then the BCC over everything before it. -/
def write_command (param1 : Nat) (p_values : List Nat) : List Nat :=
  let command := [ADDR_CODE, CMD_CODE, param1] ++ p_values
  command ++ [calculate_bcc command]

/-- Retry loop of `set_probe_p_values`, byte-for-byte the same ack
handling as the energy setter's loop. -/
def set_probe_p_values_loop (full_command : List Nat) :
    Nat → Transport → Bool × Transport
  | 0, t => (false, t)
  | n + 1, t =>
    let t1 := t.writeFrame full_command
    let (response, t2) := t1.readNext
    if 5 ≤ response.length then
      if response.getD 0 0 = ADDR_CODE ∧ response.getD 1 0 = CMD_CODE then
        let status := response.getD 3 0
        if status = 0x00 then (true, t2)
        else if status = 0x02 then (false, t2)
        else if status = 0xFF then (false, t2)
        else set_probe_p_values_loop full_command n t2
      else set_probe_p_values_loop full_command n t2
    else set_probe_p_values_loop full_command n t2

/-- Function `set_probe_p_values`: probe-domain, length-17 and element-range
validation (no I/O when violated), then the bounded write/ack retry
loop.  The source breaks out of its element check at the first
out-of-range value; since validation performs no I/O the result is the
same as checking all elements. -/
def set_probe_p_values (probe_num : Nat) (p_values : List Nat)
    (permanent : Bool) (max_retries : Nat) (t : Transport) :
    Bool × Transport :=
  if (PROBE_TEMP_PARAMS probe_num).isNone then (false, t)
  else if p_values.length ≠ 17 then (false, t)
  else if ¬(p_values.all fun v => v ≤ 31) then (false, t)
  else
    let param1 := ((if permanent then PROBE_PERM_PARAMS probe_num
      else PROBE_TEMP_PARAMS probe_num).getD 0)
    set_probe_p_values_loop (write_command param1 p_values) max_retries t

/-- The update loop of `set_individual_p_values`: `p_updates` is the
dictionary of requested changes, modelled as an association list of
(one-based P number, value) pairs in iteration order.  A key `'Pk'` is
in `P_DESCRIPTIONS` exactly when `1 ≤ k ≤ 17` (the source's follow-up
`0 <= p_index <= 16` check is then always true); an invalid key or an
out-of-range value aborts with `none`, otherwise element `k-1` of the
working copy is overwritten. -/
def apply_updates (vals : List Nat) : List (Nat × Nat) → Option (List Nat)
  | [] => some vals
  | (p, v) :: rest =>
    if 1 ≤ p ∧ p ≤ 17 then
      if v ≤ 31 then apply_updates (vals.set (p - 1) v) rest
      else none
    else none

/-- The verification predicate at the end of `set_individual_p_values`:
every requested (P number, value) pair is compared against the re-read
vector; unrequested elements are not compared. -/
def updates_applied (updated : List Nat) (p_updates : List (Nat × Nat)) : Bool :=
  p_updates.all fun pv => updated.getD (pv.1 - 1) 0 = pv.2

/-- Function `set_individual_p_values`: read the current 17 P values (abort on
failure), overlay the requested updates, submit the full vector, and,
when `verify` is set and the write succeeded, re-read and compare only
the requested elements; a failed verification re-read returns the
write's success unchanged. -/
def set_individual_p_values (probe_num : Nat) (p_updates : List (Nat × Nat))
    (permanent : Bool) (verify : Bool) (t : Transport) :
    Bool × Transport :=
  match read_probe_p_values probe_num t with
  | (none, t1) => (false, t1)
  | (some current_values, t1) =>
    match apply_updates current_values p_updates with
    | none => (false, t1)
    | some new_values =>
      let (success, t2) := set_probe_p_values probe_num new_values permanent 3 t1
      if success ∧ verify then
        match read_probe_p_values probe_num t2 with
        | (some updated_values, t3) =>
          (updates_applied updated_values p_updates, t3)
        | (none, t3) => (success, t3)
      else (success, t2)

/-- Function `apply_preset`: look up the preset (unknown name fails without
I/O), submit its 17 values as a full replace, and, when `verify` is set
and the write succeeded, re-read and require the returned vector to
equal the preset element-for-element; a failed verification re-read
returns the write's success unchanged. -/
def apply_preset (probe_num : Nat) (preset_name : String)
    (permanent : Bool) (verify : Bool) (t : Transport) :
    Bool × Transport :=
  match BEAM_PRESETS preset_name with
  | none => (false, t)
  | some values =>
    let (success, t1) := set_probe_p_values probe_num values permanent 3 t
    if success ∧ verify then
      match read_probe_p_values probe_num t1 with
      | (some updated_values, t2) => (updated_values = values, t2)
      | (none, t2) => (success, t2)
    else (success, t1)

end KS236PValueSetter

/-! ## Test fixtures

Helper frames used as scripted transport inputs in the theorems below.
`mk_frame` appends the correct BCC to a header-plus-data prefix, giving
a well-checksummed frame. -/

/-- A frame consisting of the given bytes followed by their XOR. -/
def mk_frame (body : List Nat) : List Nat :=
  body ++ [calculate_bcc body]

/-- The 15-byte energy response of the spec's query scenario:
`E8 99 D3 02 02 02 01 00 02 05 06 02 2C 40` plus the XOR of those 14
bytes. -/
def scenario_energy_frame : List Nat :=
  mk_frame [0xE8, 0x99, 0xD3, 0x02, 0x02, 0x02, 0x01, 0x00, 0x02,
    0x05, 0x06, 0x02, 0x2C, 0x40]

/-- A well-checksummed 21-byte P-value response for probe 1 carrying
the factory-default vector. -/
def default_p_frame : List Nat :=
  mk_frame ([0xE8, 0x99, 0xE1] ++
    [19, 19, 19, 31, 31, 31, 31, 31, 31, 31, 31, 31, 0, 3, 1, 0, 1])

/-- A 5-byte write acknowledgement with status `0x00` (success). -/
def ack_ok : List Nat := [0xE8, 0x99, 0x00, 0x00, 0x00]

/-- A 5-byte header-correct write acknowledgement with the given
status byte at offset 3. -/
def ack_with_status (status : Nat) : List Nat :=
  [0xE8, 0x99, 0x00, status, 0x00]

/-- A 15-byte response with correct header but a checksum byte (0x00)
different from the XOR of the preceding 14 bytes. -/
def bad_bcc_energy_response : List Nat :=
  [0xE8, 0x99, 0xD1, 1, 1, 1, 1, 1, 1, 1, 1, 1, 0x2C, 0x40, 0x00]

/-- A 21-byte response with correct header but a checksum byte (0x00)
different from the XOR of the preceding 20 bytes. -/
def bad_bcc_p_response : List Nat :=
  [0xE8, 0x99, 0xE1, 19, 19, 19, 31, 31, 31, 31, 31, 31, 31, 31, 31,
    0, 3, 1, 0, 1, 0x00]

/-- The factory-default 17-element P vector (the `default` preset). -/
def default_p_values : List Nat :=
  [19, 19, 19, 31, 31, 31, 31, 31, 31, 31, 31, 31, 0, 3, 1, 0, 1]

/-- A well-formed 15-byte energy response carrying the default profile
(3,2,2 / 1,0,2 / 5,6,2), used as the current-profile read. -/
def current_energy_frame : List Nat :=
  mk_frame [0xE8, 0x99, 0xD1, 3, 2, 2, 1, 0, 2, 5, 6, 2, 0x2C, 0x40]

/-- Spec-side view of an energy profile as its nine configurable bytes
in wire order. -/
def energy_fields (p : KS236EnergySetter.EnergyParams) : List Nat :=
  [p.energy1, p.time1, p.threshold1, p.energy2, p.time2, p.threshold2,
    p.energy3, p.time3, p.threshold3]

/-- Index of the selected range's energy byte within `energy_fields`. -/
def energy_idx : KS236EnergySetter.RangeSel → Nat
  | .r2_5m => 0
  | .r1_5m => 3
  | .r6_5m => 6

/-- Index of the selected range's blind-zone time byte. -/
def time_idx : KS236EnergySetter.RangeSel → Nat
  | .r2_5m => 1
  | .r1_5m => 4
  | .r6_5m => 7

/-- Index of the selected range's threshold byte. -/
def threshold_idx : KS236EnergySetter.RangeSel → Nat
  | .r2_5m => 2
  | .r1_5m => 5
  | .r6_5m => 8

/-- A well-formed 15-byte energy response whose 2.5 m range carries
energy `e` and time `t` (threshold 2), other ranges at the defaults. -/
def c4_energy_verif (e t : Nat) : List Nat :=
  mk_frame [0xE8, 0x99, 0xD1, e, t, 2, 1, 0, 2, 5, 6, 2, 0x2C, 0x40]

/-! ## C1 — query-response classifier -/

/-- C1: for every probe in the query table's domain, the classifier of
each reader accepts a raw response exactly when the length equals the
operation's fixed length (15 for energy, 21 for P-values), the address
byte is `0xE8`, the command byte is `0x99`, the echoed parameter byte is
the requested probe's code, and the final byte is the XOR of all
preceding bytes; every empty, short, header-mismatched,
wrong-parameter or checksum-mismatched response is therefore rejected. -/
theorem c1_classifier_accepts_iff :
    (∀ probe param, KS236EnergyReader.PROBE_PARAMS probe = some param →
      ∀ response : List Nat,
        (KS236EnergyReader.validate_response response probe = true ↔
          (response.length = 15 ∧ response.getD 0 0 = 0xE8 ∧
            response.getD 1 0 = 0x99 ∧ response.getD 2 0 = param ∧
            response.getLastD 0 = List.foldl Nat.xor 0 response.dropLast))) ∧
    (∀ probe param, KS236PValueReader.PROBE_PARAMS probe = some param →
      ∀ response : List Nat,
        (KS236PValueReader.validate_response response probe = true ↔
          (response.length = 21 ∧ response.getD 0 0 = 0xE8 ∧
            response.getD 1 0 = 0x99 ∧ response.getD 2 0 = param ∧
            response.getLastD 0 = List.foldl Nat.xor 0 response.dropLast))) := by
  constructor
  · intro probe param h response
    unfold KS236EnergyReader.validate_response
    rw [h]
    simp only [KS236EnergyReader.EXPECTED_RESPONSE_LENGTH,
      KS236EnergyReader.ADDR_CODE, KS236EnergyReader.CMD_CODE, calculate_bcc]
    split_ifs <;> simp_all <;> tauto
  · intro probe param h response
    unfold KS236PValueReader.validate_response
    rw [h]
    simp only [KS236PValueReader.EXPECTED_RESPONSE_LENGTH,
      KS236PValueReader.ADDR_CODE, KS236PValueReader.CMD_CODE, calculate_bcc]
    split_ifs <;> simp_all <;> tauto

/-- C1 witness: the scenario frame is accepted for energy probe 3 and
the default P frame for P probe 1, via `c1_classifier_accepts_iff`. -/
theorem c1_classifier_accepts_iff_witness :
    KS236EnergyReader.validate_response scenario_energy_frame 3 = true ∧
    KS236PValueReader.validate_response default_p_frame 1 = true :=
  ⟨(c1_classifier_accepts_iff.1 3 0xD3 rfl scenario_energy_frame).mpr (by decide),
   (c1_classifier_accepts_iff.2 1 0xE1 rfl default_p_frame).mpr (by decide)⟩

/-! ## C2 — checksum-mismatch rejection -/

/-- C2 counterexample: the energy setter's pre-partial-update read
(`read_probe_params`) accepts a full-length, header-correct response
whose last byte is NOT the XOR of the preceding bytes, and returns its
data region as the current profile — contradicting the claim that every
such read rejects wrong-checksum responses. -/
theorem c2_counterexample_energy_read_accepts_bad_bcc :
    bad_bcc_energy_response.getLastD 0 ≠
      calculate_bcc bad_bcc_energy_response.dropLast ∧
    (KS236EnergySetter.read_probe_params 1 ⟨[bad_bcc_energy_response], []⟩).1 =
      some ⟨1, 1, 1, 1, 1, 1, 1, 1, 1⟩ := by decide

/-- C2 amended: wrong-checksum responses are never classified valid by
either reader's `validate_response`, and the P-value partial-update
read (`read_probe_p_values`) rejects them; the energy partial-update
read (`read_probe_params`), however, checks only length and the
address/command header, and returns the data region of any full-length,
header-correct response regardless of its checksum byte. -/
theorem c2_amended_checksum_rejection :
    (∀ response probe, response.getLastD 0 ≠ calculate_bcc response.dropLast →
      KS236EnergyReader.validate_response response probe = false ∧
      KS236PValueReader.validate_response response probe = false) ∧
    (∀ probe response rest ws,
      response.getD 20 0 ≠ calculate_bcc response.dropLast →
      (KS236PValueSetter.read_probe_p_values probe ⟨response :: rest, ws⟩).1 =
        none) ∧
    (∀ probe param response rest ws,
      KS236EnergySetter.PROBE_QUERY_PARAMS probe = some param →
      response.length = 15 → response.getD 0 0 = 0xE8 →
      response.getD 1 0 = 0x99 →
      (KS236EnergySetter.read_probe_params probe ⟨response :: rest, ws⟩).1 =
        some ⟨response.getD 3 0, response.getD 4 0, response.getD 5 0,
          response.getD 6 0, response.getD 7 0, response.getD 8 0,
          response.getD 9 0, response.getD 10 0, response.getD 11 0⟩) := by
  refine ⟨fun response probe hne => ⟨?_, ?_⟩, ?_, ?_⟩
  · unfold KS236EnergyReader.validate_response
    cases KS236EnergyReader.PROBE_PARAMS probe with
    | none => rfl
    | some p => split_ifs <;> simp_all
  · unfold KS236PValueReader.validate_response
    cases KS236PValueReader.PROBE_PARAMS probe with
    | none => rfl
    | some p => split_ifs <;> simp_all
  · intro probe response rest ws hne
    unfold KS236PValueSetter.read_probe_p_values
    cases KS236PValueSetter.PROBE_QUERY_PARAMS probe with
    | none => rfl
    | some p =>
      simp only [Transport.writeFrame, Transport.readNext]
      split_ifs <;> simp_all
  · intro probe param response rest ws hq hlen h0 h1
    unfold KS236EnergySetter.read_probe_params
    rw [hq]
    simp only [Transport.writeFrame, Transport.readNext]
    rw [if_pos hlen]
    split_ifs with hc
    · rfl
    · exact absurd ⟨h0, h1⟩ hc

/-- C2 amendment witness: both classifiers reject the concrete
wrong-checksum frame, and the P-value read path returns no value on
it, via `c2_amended_checksum_rejection`. -/
theorem c2_amended_checksum_rejection_witness :
    KS236EnergyReader.validate_response bad_bcc_energy_response 1 = false ∧
    (KS236PValueSetter.read_probe_p_values 1 ⟨[bad_bcc_p_response], []⟩).1 =
      none :=
  ⟨(c2_amended_checksum_rejection.1 bad_bcc_energy_response 1 (by decide)).1,
   c2_amended_checksum_rejection.2.1 1 bad_bcc_p_response [] [] (by decide)⟩

/-! ## C3 — unknown ack status handling in the write engines -/


/-- C3 counterexample: against a transport answering every attempt with
a full, header-correct acknowledgement carrying the unknown status
`0x01`, both write engines perform all three attempts (three frames
written) instead of returning after the first — the claim that an
unknown status is terminal and never retried is false. -/
theorem c3_counterexample_unknown_status_is_retried :
    KS236EnergySetter.set_probe_params 1 3 2 2 1 0 2 5 6 2 false 3
        ⟨List.replicate 3 (ack_with_status 0x01), []⟩ =
      (false, ⟨[], List.replicate 3
        (KS236EnergySetter.write_command 0xB1 3 2 2 1 0 2 5 6 2)⟩) ∧
    KS236PValueSetter.set_probe_p_values 1 default_p_values false 3
        ⟨List.replicate 3 (ack_with_status 0x01), []⟩ =
      (false, ⟨[], List.replicate 3
        (KS236PValueSetter.write_command 0xC1 default_p_values)⟩) := by decide

/-- C3 amended: in both write engines a full, header-correct ack with a
status byte outside {0x00, 0x02, 0xFF} is treated like a communication
failure — it consumes a retry, the write is reattempted up to the
budget, and the operation then returns the same generic failure; only
the statuses 0x00 (success), 0x02 (parameter error) and 0xFF (failure)
are terminal, returning after a single attempt. -/
theorem c3_amended_unknown_status_retried :
    (∀ s ∈ Finset.range 256, s ≠ 0x00 → s ≠ 0x02 → s ≠ 0xFF →
      (KS236EnergySetter.set_probe_params 1 3 2 2 1 0 2 5 6 2 false 3
          ⟨List.replicate 3 (ack_with_status s), []⟩).1 = false ∧
      (KS236EnergySetter.set_probe_params 1 3 2 2 1 0 2 5 6 2 false 3
          ⟨List.replicate 3 (ack_with_status s), []⟩).2.writes.length = 3 ∧
      (KS236PValueSetter.set_probe_p_values 1 default_p_values false 3
          ⟨List.replicate 3 (ack_with_status s), []⟩).1 = false ∧
      (KS236PValueSetter.set_probe_p_values 1 default_p_values false 3
          ⟨List.replicate 3 (ack_with_status s), []⟩).2.writes.length = 3) ∧
    (∀ s ∈ ({0x00, 0x02, 0xFF} : Finset Nat),
      (KS236EnergySetter.set_probe_params 1 3 2 2 1 0 2 5 6 2 false 3
          ⟨List.replicate 3 (ack_with_status s), []⟩).1 = decide (s = 0x00) ∧
      (KS236EnergySetter.set_probe_params 1 3 2 2 1 0 2 5 6 2 false 3
          ⟨List.replicate 3 (ack_with_status s), []⟩).2.writes.length = 1 ∧
      (KS236PValueSetter.set_probe_p_values 1 default_p_values false 3
          ⟨List.replicate 3 (ack_with_status s), []⟩).1 = decide (s = 0x00) ∧
      (KS236PValueSetter.set_probe_p_values 1 default_p_values false 3
          ⟨List.replicate 3 (ack_with_status s), []⟩).2.writes.length = 1) := by
  constructor <;> decide

/-- C3 amendment witness: status `0x01` yields three attempts and
failure, status `0x02` yields one attempt, via
`c3_amended_unknown_status_retried`. -/
theorem c3_amended_unknown_status_retried_witness :
    ((KS236EnergySetter.set_probe_params 1 3 2 2 1 0 2 5 6 2 false 3
        ⟨List.replicate 3 (ack_with_status 0x01), []⟩).1 = false ∧
      (KS236EnergySetter.set_probe_params 1 3 2 2 1 0 2 5 6 2 false 3
        ⟨List.replicate 3 (ack_with_status 0x01), []⟩).2.writes.length = 3 ∧
      (KS236PValueSetter.set_probe_p_values 1 default_p_values false 3
        ⟨List.replicate 3 (ack_with_status 0x01), []⟩).1 = false ∧
      (KS236PValueSetter.set_probe_p_values 1 default_p_values false 3
        ⟨List.replicate 3 (ack_with_status 0x01), []⟩).2.writes.length = 3) ∧
    ((KS236EnergySetter.set_probe_params 1 3 2 2 1 0 2 5 6 2 false 3
        ⟨List.replicate 3 (ack_with_status 0x02), []⟩).1 = decide (2 = 0x00) ∧
      (KS236EnergySetter.set_probe_params 1 3 2 2 1 0 2 5 6 2 false 3
        ⟨List.replicate 3 (ack_with_status 0x02), []⟩).2.writes.length = 1 ∧
      (KS236PValueSetter.set_probe_p_values 1 default_p_values false 3
        ⟨List.replicate 3 (ack_with_status 0x02), []⟩).1 = decide (2 = 0x00) ∧
      (KS236PValueSetter.set_probe_p_values 1 default_p_values false 3
        ⟨List.replicate 3 (ack_with_status 0x02), []⟩).2.writes.length = 1) :=
  ⟨c3_amended_unknown_status_retried.1 1 (by decide) (by decide) (by decide)
      (by decide),
   c3_amended_unknown_status_retried.2 2 (by decide)⟩

/-! ## C5 — retry exhaustion on an always-empty transport -/

/-- Helper: on a transport with no scripted reads (every read times out
empty), each iteration of the energy query loop writes the command once
and falls through, so `n` remaining attempts append exactly `n` copies
of the command and yield no value. -/
theorem energy_query_loop_empty_reads (command : List Nat) (probe : Nat) :
    ∀ (n : Nat) (ws : List (List Nat)),
      KS236EnergyReader.query_probe_loop command probe n ⟨[], ws⟩ =
        (none, ⟨[], ws ++ List.replicate n command⟩) := by
  intro n
  induction n with
  | zero => intro ws; simp [KS236EnergyReader.query_probe_loop]
  | succ n ih =>
    intro ws
    simp only [KS236EnergyReader.query_probe_loop, Transport.writeFrame,
      Transport.readNext, List.length_nil,
      KS236EnergyReader.EXPECTED_RESPONSE_LENGTH]
    rw [if_neg (by omega)]
    rw [ih (ws ++ [command])]
    simp [List.replicate_succ]

/-- Helper: the P-value query loop behaves identically on an
always-empty transport. -/
theorem p_query_loop_empty_reads (command : List Nat) (probe : Nat) :
    ∀ (n : Nat) (ws : List (List Nat)),
      KS236PValueReader.query_probe_loop command probe n ⟨[], ws⟩ =
        (none, ⟨[], ws ++ List.replicate n command⟩) := by
  intro n
  induction n with
  | zero => intro ws; simp [KS236PValueReader.query_probe_loop]
  | succ n ih =>
    intro ws
    simp only [KS236PValueReader.query_probe_loop, Transport.writeFrame,
      Transport.readNext, List.length_nil,
      KS236PValueReader.EXPECTED_RESPONSE_LENGTH]
    rw [if_neg (by omega)]
    rw [ih (ws ++ [command])]
    simp [List.replicate_succ]

/-- C5: for every probe in the query domain and every retry budget, a
query against a transport whose reads always return empty performs
exactly `max_retries` attempts — the write log is exactly `max_retries`
copies of the query command — and then returns no value (the model is a
total function, so no exception escapes). -/
theorem c5_retry_exhaustion_returns_none :
    (∀ probe command,
      KS236EnergyReader.create_query_command probe = some command →
      ∀ max_retries,
        KS236EnergyReader.query_probe probe max_retries ⟨[], []⟩ =
          (none, ⟨[], List.replicate max_retries command⟩)) ∧
    (∀ probe command,
      KS236PValueReader.create_query_command probe = some command →
      ∀ max_retries,
        KS236PValueReader.query_probe probe max_retries ⟨[], []⟩ =
          (none, ⟨[], List.replicate max_retries command⟩)) := by
  constructor
  · intro probe command h max_retries
    unfold KS236EnergyReader.query_probe
    rw [h]
    show KS236EnergyReader.query_probe_loop command probe max_retries ⟨[], []⟩ = _
    rw [energy_query_loop_empty_reads command probe max_retries []]
    simp
  · intro probe command h max_retries
    unfold KS236PValueReader.query_probe
    rw [h]
    show KS236PValueReader.query_probe_loop command probe max_retries ⟨[], []⟩ = _
    rw [p_query_loop_empty_reads command probe max_retries []]
    simp

/-- C5 witness: probe 1, default budget 3, on both readers, via
`c5_retry_exhaustion_returns_none`. -/
theorem c5_retry_exhaustion_returns_none_witness :
    KS236EnergyReader.query_probe 1 3 ⟨[], []⟩ =
      (none, ⟨[], List.replicate 3 [0xE8, 0x99, 0xD1, 0xA0]⟩) ∧
    KS236PValueReader.query_probe 1 3 ⟨[], []⟩ =
      (none, ⟨[], List.replicate 3 [0xE8, 0x99, 0xE1, 0x90]⟩) :=
  ⟨c5_retry_exhaustion_returns_none.1 1 [0xE8, 0x99, 0xD1, 0xA0] (by decide) 3,
   c5_retry_exhaustion_returns_none.2 1 [0xE8, 0x99, 0xE1, 0x90] (by decide) 3⟩

/-! ## C7 — range validation precedes all I/O -/

/-- C7: any energy write request with an energy or blind-zone time
outside [0,7] or a threshold outside [0,3], and any P-value write
request containing an element outside [0,31], returns a validation
failure and leaves the transport untouched — in particular, zero frames
are written. -/
theorem c7_range_validation_no_io :
    (∀ probe e1 t1 th1 e2 t2 th2 e3 t3 th3 permanent max_retries t,
      (7 < e1 ∨ 7 < e2 ∨ 7 < e3 ∨ 7 < t1 ∨ 7 < t2 ∨ 7 < t3 ∨
        3 < th1 ∨ 3 < th2 ∨ 3 < th3) →
      KS236EnergySetter.set_probe_params probe e1 t1 th1 e2 t2 th2 e3 t3 th3
        permanent max_retries t = (false, t)) ∧
    (∀ probe p_values permanent max_retries t,
      (∃ v ∈ p_values, 31 < v) →
      KS236PValueSetter.set_probe_p_values probe p_values permanent
        max_retries t = (false, t)) := by
  constructor
  · intro probe e1 t1 th1 e2 t2 th2 e3 t3 th3 permanent max_retries t h
    unfold KS236EnergySetter.set_probe_params
    split_ifs with h1 h2 h3 h4 <;> try rfl
    all_goals exfalso; omega
  · intro probe p_values permanent max_retries t h
    obtain ⟨v, hv, hgt⟩ := h
    unfold KS236PValueSetter.set_probe_p_values
    split_ifs with h1 h2 h3 <;> try rfl
    all_goals exfalso
    all_goals have hall := List.all_eq_true.mp h3 v hv
    all_goals simp at hall
    all_goals omega

/-- C7 witness: energy 8 and P-value 32 are rejected with an empty
write log, via `c7_range_validation_no_io`. -/
theorem c7_range_validation_no_io_witness :
    KS236EnergySetter.set_probe_params 1 8 0 0 0 0 0 0 0 0 false 3 ⟨[], []⟩ =
      (false, ⟨[], []⟩) ∧
    KS236PValueSetter.set_probe_p_values 1
        [32, 0, 0, 0, 0, 0, 0, 0, 0, 0, 0, 0, 0, 0, 0, 0, 0] false 3
        ⟨[], []⟩ =
      (false, ⟨[], []⟩) :=
  ⟨c7_range_validation_no_io.1 1 8 0 0 0 0 0 0 0 0 false 3 ⟨[], []⟩
      (by left; omega),
   c7_range_validation_no_io.2 1 [32, 0, 0, 0, 0, 0, 0, 0, 0, 0, 0, 0, 0, 0, 0, 0, 0]
      false 3 ⟨[], []⟩ ⟨32, by decide, by omega⟩⟩

/-! ## C8 — checksum and frame-building invariants -/

/-- C8: the checksum function is the left-to-right XOR fold, and every
frame the codec builds — the 4-byte query frames of both readers, the
15-byte energy write frame and the 21-byte P-value write frame — ends
in the XOR of all its preceding bytes. -/
theorem c8_checksum_and_frame_invariants :
    (∀ data : List Nat, 1 ≤ data.length →
      calculate_bcc data = data.foldl Nat.xor 0) ∧
    (∀ probe command,
      KS236EnergyReader.create_query_command probe = some command →
      command.length = 4 ∧
      command.getLast? = some (calculate_bcc command.dropLast)) ∧
    (∀ probe command,
      KS236PValueReader.create_query_command probe = some command →
      command.length = 4 ∧
      command.getLast? = some (calculate_bcc command.dropLast)) ∧
    (∀ param1 e1 t1 th1 e2 t2 th2 e3 t3 th3 : Nat,
      (KS236EnergySetter.write_command param1 e1 t1 th1 e2 t2 th2
          e3 t3 th3).length = 15 ∧
      (KS236EnergySetter.write_command param1 e1 t1 th1 e2 t2 th2
          e3 t3 th3).getLast? =
        some (calculate_bcc (KS236EnergySetter.write_command param1 e1 t1 th1
          e2 t2 th2 e3 t3 th3).dropLast)) ∧
    (∀ param1 p_values, p_values.length = 17 →
      (KS236PValueSetter.write_command param1 p_values).length = 21 ∧
      (KS236PValueSetter.write_command param1 p_values).getLast? =
        some (calculate_bcc
          (KS236PValueSetter.write_command param1 p_values).dropLast)) := by
  refine ⟨fun data _ => rfl, ?_, ?_, ?_, ?_⟩
  · intro probe command h
    rw [KS236EnergyReader.create_query_command, Option.map_eq_some'] at h
    obtain ⟨param, hp, rfl⟩ := h
    refine ⟨rfl, ?_⟩
    simp [calculate_bcc, KS236EnergyReader.ADDR_CODE,
      KS236EnergyReader.CMD_CODE]
    congr 1
  · intro probe command h
    rw [KS236PValueReader.create_query_command, Option.map_eq_some'] at h
    obtain ⟨param, hp, rfl⟩ := h
    refine ⟨rfl, ?_⟩
    simp [calculate_bcc, KS236PValueReader.ADDR_CODE,
      KS236PValueReader.CMD_CODE]
    congr 1
  · intro param1 e1 t1 th1 e2 t2 th2 e3 t3 th3
    refine ⟨rfl, ?_⟩
    simp [KS236EnergySetter.write_command, List.getLast?_concat,
      List.dropLast_concat]
  · intro param1 p_values h
    unfold KS236PValueSetter.write_command
    constructor
    · simp [h]
    · rw [List.dropLast_concat, List.getLast?_concat]

/-- C8 witness: the checksum fold on a singleton, query probe 1, and a
17-element P write frame, via `c8_checksum_and_frame_invariants`. -/
theorem c8_checksum_and_frame_invariants_witness :
    calculate_bcc [0x2C] = [0x2C].foldl Nat.xor 0 ∧
    ([0xE8, 0x99, 0xD1, 0xA0] : List Nat).length = 4 ∧
    (KS236PValueSetter.write_command 0xC1 default_p_values).length = 21 :=
  ⟨c8_checksum_and_frame_invariants.1 [0x2C] (by decide),
   (c8_checksum_and_frame_invariants.2.1 1 [0xE8, 0x99, 0xD1, 0xA0]
      (by decide)).1,
   (c8_checksum_and_frame_invariants.2.2.2.2 0xC1 default_p_values
      (by decide)).1⟩

/-! ## C10 — success reported when the verification re-read fails -/


/-- C10: for every probe 1-9, when the write is acknowledged with
status 0x00 but the requested verification re-read returns nothing (the
transport script is exhausted, so the re-read times out empty), the
energy range set, the individual P-value set and the preset application
all still report overall success. -/
theorem c10_success_despite_failed_verification_read :
    ∀ probe ∈ Finset.Icc 1 9,
      (KS236EnergySetter.set_range_energy probe .r2_5m 5 none none false true
        ⟨[current_energy_frame, ack_ok], []⟩).1 = true ∧
      (KS236PValueSetter.set_individual_p_values probe [(1, 15)] false true
        ⟨[default_p_frame, ack_ok], []⟩).1 = true ∧
      (KS236PValueSetter.apply_preset probe "narrow" false true
        ⟨[ack_ok], []⟩).1 = true := by decide

/-- C10 witness: probe 1, via
`c10_success_despite_failed_verification_read`. -/
theorem c10_success_despite_failed_verification_read_witness :
    (1 ∈ Finset.Icc 1 9) ∧
    ((KS236EnergySetter.set_range_energy 1 .r2_5m 5 none none false true
        ⟨[current_energy_frame, ack_ok], []⟩).1 = true ∧
      (KS236PValueSetter.set_individual_p_values 1 [(1, 15)] false true
        ⟨[default_p_frame, ack_ok], []⟩).1 = true ∧
      (KS236PValueSetter.apply_preset 1 "narrow" false true
        ⟨[ack_ok], []⟩).1 = true) :=
  ⟨by decide, c10_success_despite_failed_verification_read 1 (by decide)⟩

/-! ## C6 — partial-update overlay exactness -/

/-- Helper: a successful `apply_updates` run preserves the vector
length. -/
theorem apply_updates_length_eq :
    ∀ (ups : List (Nat × Nat)) (cur res : List Nat),
      KS236PValueSetter.apply_updates cur ups = some res →
      res.length = cur.length := by
  intro ups
  induction ups with
  | nil =>
    intro cur res h
    simp [KS236PValueSetter.apply_updates] at h
    rw [← h]
  | cons pv rest ih =>
    intro cur res h
    obtain ⟨p, v⟩ := pv
    unfold KS236PValueSetter.apply_updates at h
    split_ifs at h with h1 h2
    · exact (ih _ _ h).trans (List.length_set cur (p - 1) v)

/-- Helper: every entry consumed by a successful `apply_updates` run
passed the name and range validation. -/
theorem apply_updates_entry_bounds :
    ∀ (ups : List (Nat × Nat)) (cur res : List Nat),
      KS236PValueSetter.apply_updates cur ups = some res →
      ∀ pv ∈ ups, 1 ≤ pv.1 ∧ pv.1 ≤ 17 ∧ pv.2 ≤ 31 := by
  intro ups
  induction ups with
  | nil => intro cur res _ pv hpv; simp at hpv
  | cons qv rest ih =>
    intro cur res h pv hpv
    obtain ⟨p, v⟩ := qv
    unfold KS236PValueSetter.apply_updates at h
    split_ifs at h with h1 h2
    rcases List.mem_cons.mp hpv with hhd | htl
    · rw [hhd]; exact ⟨h1.1, h1.2, h2⟩
    · exact ih _ _ h pv htl

/-- Helper: an element whose index is named by no update keeps the
value it had in the current vector. -/
theorem apply_updates_untouched :
    ∀ (ups : List (Nat × Nat)) (cur res : List Nat) (j : Nat),
      KS236PValueSetter.apply_updates cur ups = some res →
      (∀ pv ∈ ups, pv.1 - 1 ≠ j) → res.getD j 0 = cur.getD j 0 := by
  intro ups
  induction ups with
  | nil =>
    intro cur res j h _
    simp [KS236PValueSetter.apply_updates] at h
    rw [← h]
  | cons qv rest ih =>
    intro cur res j h huntouched
    obtain ⟨p, v⟩ := qv
    unfold KS236PValueSetter.apply_updates at h
    split_ifs at h with h1 h2
    have hj : p - 1 ≠ j := huntouched (p, v) (List.mem_cons_self _ _)
    have hrest := ih _ _ j h fun pv hpv =>
      huntouched pv (List.mem_cons_of_mem _ hpv)
    rw [hrest, List.getD_eq_getElem?_getD, List.getElem?_set_ne hj,
      ← List.getD_eq_getElem?_getD]

/-- Helper: when the updates name pairwise-distinct P parameters, every
requested element of the result carries its requested value. -/
theorem apply_updates_applied :
    ∀ (ups : List (Nat × Nat)) (cur res : List Nat),
      KS236PValueSetter.apply_updates cur ups = some res →
      (ups.map Prod.fst).Nodup →
      ∀ pv ∈ ups, pv.1 - 1 < cur.length → res.getD (pv.1 - 1) 0 = pv.2 := by
  intro ups
  induction ups with
  | nil => intro cur res _ _ pv hpv; simp at hpv
  | cons qv rest ih =>
    intro cur res h hnd pv hpv hlt
    obtain ⟨p, v⟩ := qv
    unfold KS236PValueSetter.apply_updates at h
    split_ifs at h with h1 h2
    rw [List.map_cons, List.nodup_cons] at hnd
    rcases List.mem_cons.mp hpv with hhd | htl
    · subst hhd
      have hbounds := apply_updates_entry_bounds rest _ res h
      have hunt := apply_updates_untouched rest _ res (p - 1) h ?_
      · rw [hunt, List.getD_eq_getElem?_getD,
          List.getElem?_set_eq (by omega : p - 1 < cur.length)]
        rfl
      · intro qv hqv
        have hmem : qv.1 ∈ rest.map Prod.fst := List.mem_map_of_mem Prod.fst hqv
        have hne : qv.1 ≠ p := fun hfst => hnd.1 (by rw [← hfst]; exact hmem)
        have hq1 := (hbounds qv hqv).1
        omega
    · exact ih _ _ h hnd.2 pv htl (by rw [List.length_set] at *; exact hlt)

/-- C6: (energy) the overlay block of `set_range_energy` changes
exactly the selected range's energy — and its time/threshold only when
explicitly supplied — leaving every other of the nine profile bytes
byte-identical to the current profile; (P-values) a successful
`set_individual_p_values` overlay keeps the 17-element length, leaves
every unnamed element byte-identical to the value just read, and (for
distinct names) sets every named element to its requested value; and
the frame submitted to the write engine is the write frame of exactly
that overlaid profile. -/
theorem c6_overlay_update_exactness :
    (∀ current range_m energy time_val threshold,
      (energy_fields (KS236EnergySetter.overlay_params current range_m energy
        time_val threshold)).getD (energy_idx range_m) 0 = energy ∧
      (time_val = none →
        (energy_fields (KS236EnergySetter.overlay_params current range_m energy
          time_val threshold)).getD (time_idx range_m) 0 =
        (energy_fields current).getD (time_idx range_m) 0) ∧
      (∀ v, time_val = some v →
        (energy_fields (KS236EnergySetter.overlay_params current range_m energy
          time_val threshold)).getD (time_idx range_m) 0 = v) ∧
      (threshold = none →
        (energy_fields (KS236EnergySetter.overlay_params current range_m energy
          time_val threshold)).getD (threshold_idx range_m) 0 =
        (energy_fields current).getD (threshold_idx range_m) 0) ∧
      (∀ v, threshold = some v →
        (energy_fields (KS236EnergySetter.overlay_params current range_m energy
          time_val threshold)).getD (threshold_idx range_m) 0 = v) ∧
      (∀ j, j < 9 → j ≠ energy_idx range_m → j ≠ time_idx range_m →
        j ≠ threshold_idx range_m →
        (energy_fields (KS236EnergySetter.overlay_params current range_m energy
          time_val threshold)).getD j 0 = (energy_fields current).getD j 0)) ∧
    (∀ (cur : List Nat) (ups : List (Nat × Nat)) (res : List Nat),
      cur.length = 17 →
      KS236PValueSetter.apply_updates cur ups = some res →
      res.length = 17 ∧
      (∀ j, (∀ pv ∈ ups, pv.1 - 1 ≠ j) → res.getD j 0 = cur.getD j 0) ∧
      ((ups.map Prod.fst).Nodup →
        ∀ pv ∈ ups, res.getD (pv.1 - 1) 0 = pv.2)) ∧
    (∀ e ∈ Finset.range 8,
      (KS236EnergySetter.set_range_energy 1 .r1_5m e (some 3) none false false
        ⟨[current_energy_frame, ack_ok], []⟩).2.writes.getD 1 [] =
      KS236EnergySetter.write_command 0xB1 3 2 2 e 3 2 5 6 2) ∧
    (∀ w ∈ Finset.range 32,
      (KS236PValueSetter.set_individual_p_values 1 [(2, w)] false false
        ⟨[default_p_frame, ack_ok], []⟩).2.writes.getD 1 [] =
      KS236PValueSetter.write_command 0xC1 (default_p_values.set 1 w)) := by
  refine ⟨?_, ?_, by decide, by decide⟩
  · intro current range_m energy time_val threshold
    refine ⟨?_, ?_, ?_, ?_, ?_, ?_⟩
    · cases range_m <;>
        simp [KS236EnergySetter.overlay_params, energy_fields, energy_idx]
    · intro hn; subst hn
      cases range_m <;>
        simp [KS236EnergySetter.overlay_params, energy_fields, time_idx]
    · intro v hv; subst hv
      cases range_m <;>
        simp [KS236EnergySetter.overlay_params, energy_fields, time_idx]
    · intro hn; subst hn
      cases range_m <;>
        simp [KS236EnergySetter.overlay_params, energy_fields, threshold_idx]
    · intro v hv; subst hv
      cases range_m <;>
        simp [KS236EnergySetter.overlay_params, energy_fields, threshold_idx]
    · intro j h9 he ht hth
      cases range_m <;>
        (simp only [energy_idx, time_idx, threshold_idx] at he ht hth;
          interval_cases j <;>
            simp_all [KS236EnergySetter.overlay_params, energy_fields])
  · intro cur ups res hcur h
    refine ⟨(apply_updates_length_eq ups cur res h).trans hcur,
      fun j hj => apply_updates_untouched ups cur res j h hj,
      fun hnd pv hpv => apply_updates_applied ups cur res h hnd pv hpv ?_⟩
    have := (apply_updates_entry_bounds ups cur res h pv hpv).2.1
    omega

/-- C6 witness: a concrete overlay instance (energy 7 on the 2.5 m
range), a concrete untouched P element, and the submitted frame at
energy 0, via `c6_overlay_update_exactness`. -/
theorem c6_overlay_update_exactness_witness :
    (energy_fields (KS236EnergySetter.overlay_params ⟨3, 2, 2, 1, 0, 2, 5, 6, 2⟩
      .r2_5m 7 none none)).getD 0 0 = 7 ∧
    ([15, 19, 19, 31, 31, 31, 31, 31, 31, 31, 31, 31, 0, 3, 1, 0, 1] :
      List Nat).getD 5 0 = default_p_values.getD 5 0 ∧
    (KS236EnergySetter.set_range_energy 1 .r1_5m 0 (some 3) none false false
      ⟨[current_energy_frame, ack_ok], []⟩).2.writes.getD 1 [] =
    KS236EnergySetter.write_command 0xB1 3 2 2 0 3 2 5 6 2 :=
  ⟨(c6_overlay_update_exactness.1 ⟨3, 2, 2, 1, 0, 2, 5, 6, 2⟩ .r2_5m 7
      none none).1,
   (c6_overlay_update_exactness.2.1 default_p_values [(1, 15)]
      [15, 19, 19, 31, 31, 31, 31, 31, 31, 31, 31, 31, 0, 3, 1, 0, 1]
      (by decide) (by decide)).2.1 5 (by decide),
   c6_overlay_update_exactness.2.2.1 0 (by decide)⟩

/-! ## C4 — verification semantics of profile writes -/


/-- C4 counterexample: probe 1's 2.5 m energy is set to 5 with an
explicit time 3, so the submitted profile is (5,3,2, 1,0,2, 5,6,2); the
verification re-read returns (5,2,2, 1,0,2, 5,6,2) — an element (time1)
differs from the submitted profile — yet the operation reports success,
because only the energy byte of the named range is compared. -/
theorem c4_counterexample_verification_not_elementwise :
    (KS236EnergySetter.set_range_energy 1 .r2_5m 5 (some 3) none false true
      ⟨[current_energy_frame, ack_ok, c4_energy_verif 5 2], []⟩).1 = true ∧
    (KS236EnergySetter.set_range_energy 1 .r2_5m 5 (some 3) none false true
      ⟨[current_energy_frame, ack_ok, c4_energy_verif 5 2], []⟩).2.writes.getD
        1 [] =
      KS236EnergySetter.write_command 0xB1 5 3 2 1 0 2 5 6 2 ∧
    (KS236EnergySetter.read_probe_params 1 ⟨[c4_energy_verif 5 2], []⟩).1 =
      some ⟨5, 2, 2, 1, 0, 2, 5, 6, 2⟩ ∧
    (⟨5, 2, 2, 1, 0, 2, 5, 6, 2⟩ : KS236EnergySetter.EnergyParams) ≠
      ⟨5, 3, 2, 1, 0, 2, 5, 6, 2⟩ := by decide

/-- Helper: one step of the P write-engine loop against a success ack:
the frame is written once and the engine returns success, leaving the
remaining script untouched. -/
theorem p_write_loop_ack_ok_step (full_command : List Nat) (n : Nat)
    (rest ws : List (List Nat)) :
    KS236PValueSetter.set_probe_p_values_loop full_command (n + 1)
      ⟨ack_ok :: rest, ws⟩ = (true, ⟨rest, ws ++ [full_command]⟩) := by
  simp [KS236PValueSetter.set_probe_p_values_loop, Transport.writeFrame,
    Transport.readNext, ack_ok, KS236PValueSetter.ADDR_CODE,
    KS236PValueSetter.CMD_CODE]

/-- Helper: `read_probe_p_values` on a well-checksummed 21-byte frame
carrying any 17-byte vector returns exactly that vector. -/
theorem read_p_values_well_formed_frame (probe param x : Nat)
    (vals : List Nat) (hq : KS236PValueSetter.PROBE_QUERY_PARAMS probe = some param)
    (h : vals.length = 17) (rest ws : List (List Nat)) :
    KS236PValueSetter.read_probe_p_values probe
      ⟨mk_frame ([0xE8, 0x99, x] ++ vals) :: rest, ws⟩ =
    (some vals, ⟨rest, ws ++ [[KS236PValueSetter.ADDR_CODE,
      KS236PValueSetter.CMD_CODE, param,
      Nat.xor (Nat.xor KS236PValueSetter.ADDR_CODE KS236PValueSetter.CMD_CODE)
        param]]⟩) := by
  have hbody : ([0xE8, 0x99, x] ++ vals).length = 20 := by simp [h]
  unfold KS236PValueSetter.read_probe_p_values
  rw [hq]
  dsimp only
  simp only [Transport.writeFrame, Transport.readNext]
  rw [if_pos (show (mk_frame ([0xE8, 0x99, x] ++ vals)).length = 21 by
    simp [mk_frame, h])]
  rw [if_pos ?hdr]
  case hdr =>
    constructor <;>
      simp [mk_frame, KS236PValueSetter.ADDR_CODE, KS236PValueSetter.CMD_CODE]
  rw [if_pos ?bcc]
  case bcc =>
    rw [mk_frame, List.dropLast_concat]
    rw [List.getD_append_right _ _ _ _ (le_of_eq hbody)]
    simp [hbody, h]
  rw [mk_frame, List.append_assoc]
  rw [show (3 : Nat) = ([0xE8, 0x99, x] : List Nat).length from rfl,
    List.drop_left]
  rw [show (17 : Nat) = vals.length from h.symm, List.take_left]

/-- C4 amended: when verification is requested and the re-read returns
a profile, preset application (full replace) reports success exactly
when the re-read equals the submitted vector element-for-element, but
the partial-update paths compare only the explicitly requested fields —
the energy path only the named range's energy byte and the P-value path
only the named indices — so re-read elements outside the requested set
may differ from the submitted profile without affecting the reported
outcome; mismatch and communication failure surface as the same boolean
failure, distinguished only in logged output. -/
theorem c4_amended_verification_scope :
    (∀ vals : List Nat, vals.length = 17 →
      (KS236PValueSetter.apply_preset 1 "narrow" false true
        ⟨[ack_ok, mk_frame ([0xE8, 0x99, 0xE1] ++ vals)], []⟩).1 =
      decide (vals = [31, 31, 31, 30, 26, 21, 16, 16, 13, 0, 0, 0, 0, 3, 1, 0, 1])) ∧
    (∀ tB ∈ Finset.range 256,
      (KS236EnergySetter.set_range_energy 1 .r2_5m 5 (some 3) none false true
        ⟨[current_energy_frame, ack_ok, c4_energy_verif 5 tB], []⟩).1 = true) ∧
    (∀ eB ∈ Finset.range 256,
      (KS236EnergySetter.set_range_energy 1 .r2_5m 5 (some 3) none false true
        ⟨[current_energy_frame, ack_ok, c4_energy_verif eB 2], []⟩).1 =
      decide (eB = 5)) ∧
    (∀ w ∈ Finset.range 256,
      (KS236PValueSetter.set_individual_p_values 1 [(1, 15)] false true
        ⟨[default_p_frame, ack_ok, mk_frame ([0xE8, 0x99, 0xE1] ++
          ((default_p_values.set 0 15).set 5 w))], []⟩).1 = true) ∧
    (∀ u ∈ Finset.range 256,
      (KS236PValueSetter.set_individual_p_values 1 [(1, 15)] false true
        ⟨[default_p_frame, ack_ok, mk_frame ([0xE8, 0x99, 0xE1] ++
          (default_p_values.set 0 u))], []⟩).1 =
      decide (u = 15)) := by
  refine ⟨?_, by decide, by decide, by decide, by decide⟩
  intro vals h
  have hbp : KS236PValueSetter.BEAM_PRESETS "narrow" =
      some [31, 31, 31, 30, 26, 21, 16, 16, 13, 0, 0, 0, 0, 3, 1, 0, 1] := rfl
  unfold KS236PValueSetter.apply_preset
  rw [hbp]
  dsimp only
  rw [show ∀ t, KS236PValueSetter.set_probe_p_values 1
      [31, 31, 31, 30, 26, 21, 16, 16, 13, 0, 0, 0, 0, 3, 1, 0, 1] false 3 t =
      KS236PValueSetter.set_probe_p_values_loop
        (KS236PValueSetter.write_command 0xC1
          [31, 31, 31, 30, 26, 21, 16, 16, 13, 0, 0, 0, 0, 3, 1, 0, 1]) 3 t
    from fun t => rfl]
  rw [show (3 : Nat) = 2 + 1 from rfl, p_write_loop_ack_ok_step]
  dsimp only
  rw [if_pos ⟨rfl, rfl⟩]
  rw [read_p_values_well_formed_frame 1 0xE1 0xE1 vals rfl h]

/-- C4 amendment witness: the narrow preset verified against an exact
echo reports success, and the energy partial update reports success
with a re-read whose time byte differs from the submitted one, via
`c4_amended_verification_scope`. -/
theorem c4_amended_verification_scope_witness :
    (KS236PValueSetter.apply_preset 1 "narrow" false true
      ⟨[ack_ok, mk_frame ([0xE8, 0x99, 0xE1] ++
        [31, 31, 31, 30, 26, 21, 16, 16, 13, 0, 0, 0, 0, 3, 1, 0, 1])], []⟩).1 =
      decide (([31, 31, 31, 30, 26, 21, 16, 16, 13, 0, 0, 0, 0, 3, 1, 0, 1] :
        List Nat) = [31, 31, 31, 30, 26, 21, 16, 16, 13, 0, 0, 0, 0, 3, 1, 0, 1]) ∧
    (KS236EnergySetter.set_range_energy 1 .r2_5m 5 (some 3) none false true
      ⟨[current_energy_frame, ack_ok, c4_energy_verif 5 0], []⟩).1 = true :=
  ⟨c4_amended_verification_scope.1
      [31, 31, 31, 30, 26, 21, 16, 16, 13, 0, 0, 0, 0, 3, 1, 0, 1] (by decide),
   c4_amended_verification_scope.2.1 0 (by decide)⟩

/-! ## C9 — concrete query scenario -/

/-- C9: querying probe 3 against a transport returning the exact
scenario frame is classified valid and parses to ranges
{2,2,2}, {1,0,2}, {5,6,2}. -/
theorem c9_scenario_probe3 :
    KS236EnergyReader.validate_response scenario_energy_frame 3 = true ∧
    (KS236EnergyReader.query_probe 3 3 ⟨[scenario_energy_frame], []⟩).1 =
      some { probe_num := 3
             range_2_5m := ⟨2, 2, 2⟩
             range_1_5m := ⟨1, 0, 2⟩
             range_6_5m := ⟨5, 6, 2⟩
             param1 := 0x2C
             param2 := 0x40
             bcc := 0xCE } := by decide
